import Mathlib

/-!
Shallow embedding of the CHIP8 emulator core of the pinnouse/awe repository
(src/emulators/CHIP8.rs, with the Emulator trait of src/emulators/emulator.rs).

Conventions of the embedding:
- Machine integers are Nat values; width wraps are written explicitly
  (mod 256 for u8 stores, mod 65536 for u16 stores) where the source can
  overflow; release-mode wrapping is used, matching the spec assumption of
  wrapping arithmetic.
- Fixed arrays (memory, V, gfx, stack, key) are functions Nat to Nat; every
  indexing the source performs carries its bounds check, and an index out of
  bounds makes the operation return none (a Rust panic).
- A todo macro in the source (a panic when reached) is likewise none.
- The source decodes register fields with a 16-bit right shift of the 16-bit
  opcode, written here literally as a Nat shift by 16.
- The println and eprintln side effects carry no state and are dropped; the
  beep condition of the timer update is exposed as the Bool component of
  update_timers.
- rand random of a u8 is modelled as an oracle byte rand_val carried in the
  state, read by the Cxnn opcode.
-/

def FONTSET_SIZE : Nat := 0x50
def MEMORY_SIZE : Nat := 4096
def GFX_W : Nat := 64
def GFX_H : Nat := 32
def GFX_SIZE : Nat := GFX_W * GFX_H

/-- static CHIP8_FONTSET: an all-zero table of FONTSET_SIZE bytes. -/
def CHIP8_FONTSET : Nat → Nat := fun _ => 0

/-- Pointwise update of a function-represented array. -/
def setArr (f : Nat → Nat) (i v : Nat) : Nat → Nat :=
  fun a => if a = i then v else f a

/-- The CHIP8 machine state (struct CHIP8). -/
structure CHIP8 where
  opcode : Nat
  memory : Nat → Nat
  V : Nat → Nat
  I : Nat
  pc : Nat
  gfx : Nat → Nat
  delay_timer : Nat
  sound_timer : Nat
  stack : Nat → Nat
  sp : Nat
  key : Nat → Nat
  next_key : Int
  draw_flag : Bool
  rand_val : Nat

/-- fn e_new: fresh state, pc at 0x200, fontset copied into low memory. -/
def e_new : CHIP8 where
  opcode := 0
  memory := fun i => if i < FONTSET_SIZE then CHIP8_FONTSET i else 0
  V := fun _ => 0
  I := 0
  pc := 0x200
  gfx := fun _ => 0
  delay_timer := 0
  sound_timer := 0
  stack := fun _ => 0
  sp := 0
  key := fun _ => 0
  next_key := -1
  draw_flag := false
  rand_val := 0

/-- The copy loop of fn e_load: memory[i + 0x200] = data[i] for each i,
with the bounds check of the indexing (out of bounds is a panic, none). -/
def loadLoop : (Nat → Nat) → Nat → List Nat → Option (Nat → Nat)
  | mem, _, [] => some mem
  | mem, i, b :: rest =>
    if i + 0x200 < MEMORY_SIZE then
      loadLoop (setArr mem (i + 0x200) (b % 256)) (i + 1) rest
    else none

/-- fn e_load: copy the data bytes into memory starting at 0x200. -/
def e_load (s : CHIP8) (data : List Nat) : Option CHIP8 :=
  (loadLoop s.memory 0 data).map fun m => { s with memory := m }

/-- The timer tail of fn e_update (lines 271 to 281): decrement the delay
timer if nonzero; decrement the sound timer if nonzero, printing BEEP when
it is exactly 1. The Bool is the beep condition. -/
def update_timers (d s : Nat) : Nat × Nat × Bool :=
  let d2 := if 0 < d then d - 1 else d
  let beep := if 0 < s then s == 1 else false
  let s2 := if 0 < s then s - 1 else s
  (d2, s2, beep)

/-- The inner pixel loop of the Dxyn arm (for j in 0..8): paint bit x mod 2
at gfx[pos_gfx + 7 - j], OR into r the xor of the old pixel with the new
bit, and shift x right; an index outside gfx is a panic (none). -/
def drawPixels : List Nat → (Nat → Nat) → Nat → Nat → Nat →
    Option ((Nat → Nat) × Nat × Nat)
  | [], gfx, _, x, r => some (gfx, x, r)
  | j :: js, gfx, pos_gfx, x, r =>
    if pos_gfx + 7 - j < GFX_SIZE then
      let r2 := r ||| (gfx (pos_gfx + 7 - j) ^^^ (x % 2))
      let gfx2 := setArr gfx (pos_gfx + 7 - j) (x % 2)
      drawPixels js gfx2 pos_gfx (x >>> 1) r2
    else none

/-- The row loop of the Dxyn arm (for i in 0..height): read the sprite row
at memory[I + i] and paint it, OR-accumulating the per-row r into vf. -/
def drawRows : List Nat → (Nat → Nat) → (Nat → Nat) → Nat → Nat → Nat →
    Option ((Nat → Nat) × Nat)
  | [], _, gfx, _, _, vf => some (gfx, vf)
  | i :: is, mem, gfx, start_position, idx, vf =>
    if idx + i < MEMORY_SIZE then
      match drawPixels (List.range 8) gfx (start_position + i * GFX_W)
          (mem (idx + i)) 0 with
      | none => none
      | some (gfx2, _, r) => drawRows is mem gfx2 start_position idx (vf ||| r)
    else none

/-- fn e_execute_op: decode self.opcode (the argument op is never read) and
perform the matched state transition. Unknown opcodes only eprintln, leaving
the state unchanged. -/
def e_execute_op (s : CHIP8) (op : Nat) : Option CHIP8 :=
  let code_type := s.opcode &&& 0xF000
  if code_type = 0x0 then
    let sub := s.opcode &&& 0xFF
    if sub = 0xE0 then
      some { s with gfx := fun _ => 0, draw_flag := true }
    else if sub = 0xEE then
      if s.sp = 0 then some s
      else if s.sp - 1 < 16 then
        some { s with pc := s.stack (s.sp - 1), sp := s.sp - 1 }
      else none
    else some s
  else if code_type = 0x1000 then
    some { s with pc := s.opcode &&& 0xFFF }
  else if code_type = 0x2000 then
    if s.sp < 16 then
      some { s with stack := setArr s.stack s.sp s.pc, sp := s.sp + 1,
                    pc := s.opcode &&& 0xFFF }
    else none
  else if code_type = 0x3000 then
    let reg := (s.opcode &&& 0xF00) >>> 16
    if reg < 16 then
      if s.V reg = s.opcode &&& 0xFF then some { s with pc := (s.pc + 4) % 65536 }
      else some { s with pc := (s.pc + 2) % 65536 }
    else none
  else if code_type = 0x4000 then
    let reg := (s.opcode &&& 0xF00) >>> 16
    if reg < 16 then
      if s.V reg ≠ s.opcode &&& 0xFF then some { s with pc := (s.pc + 4) % 65536 }
      else some { s with pc := (s.pc + 2) % 65536 }
    else none
  else if code_type = 0x5000 then
    let reg_x := (s.opcode &&& 0xF00) >>> 16
    let reg_y := (s.opcode &&& 0xF0) >>> 8
    if reg_x < 16 ∧ reg_y < 16 then
      if s.V reg_x = s.V reg_y then some { s with pc := (s.pc + 4) % 65536 }
      else some { s with pc := (s.pc + 2) % 65536 }
    else none
  else if code_type = 0x6000 then
    let reg := (s.opcode &&& 0xF00) >>> 16
    if reg < 16 then
      some { s with V := setArr s.V reg (s.opcode &&& 0xFF),
                    pc := (s.pc + 2) % 65536 }
    else none
  else if code_type = 0x7000 then
    let reg := (s.opcode &&& 0xF00) >>> 16
    if reg < 16 then
      some { s with V := setArr s.V reg ((s.V reg + (s.opcode &&& 0xFF)) % 256),
                    pc := (s.pc + 2) % 65536 }
    else none
  else if code_type = 0x8000 then
    let sub := s.opcode &&& 0xF
    let reg_x := (s.opcode &&& 0xF00) >>> 16
    let reg_y := (s.opcode &&& 0xF0) >>> 8
    if sub = 0x0 then
      if reg_x < 16 ∧ reg_y < 16 then
        some { s with V := setArr s.V reg_x (s.V reg_y), pc := (s.pc + 2) % 65536 }
      else none
    else if sub = 0x1 then
      if reg_x < 16 ∧ reg_y < 16 then
        some { s with V := setArr s.V reg_x (s.V reg_x ||| s.V reg_y),
                      pc := (s.pc + 2) % 65536 }
      else none
    else if sub = 0x2 then
      if reg_x < 16 ∧ reg_y < 16 then
        some { s with V := setArr s.V reg_x (s.V reg_x &&& s.V reg_y),
                      pc := (s.pc + 2) % 65536 }
      else none
    else if sub = 0x3 then
      if reg_x < 16 ∧ reg_y < 16 then
        some { s with V := setArr s.V reg_x (s.V reg_x ^^^ s.V reg_y),
                      pc := (s.pc + 2) % 65536 }
      else none
    else if sub = 0x4 then
      if reg_x < 16 ∧ reg_y < 16 then
        some { s with V := setArr s.V reg_x ((s.V reg_x + s.V reg_y) % 256),
                      pc := (s.pc + 2) % 65536 }
      else none
    else if sub = 0x5 then
      if reg_x < 16 ∧ reg_y < 16 then
        some { s with V := setArr s.V reg_x ((s.V reg_x + 256 - s.V reg_y) % 256),
                      pc := (s.pc + 2) % 65536 }
      else none
    else if sub = 0x6 then
      if reg_x < 16 then
        let v1 := setArr s.V 0xF (s.V reg_x &&& 0b1)
        some { s with V := setArr v1 reg_x (v1 reg_x >>> 1),
                      pc := (s.pc + 2) % 65536 }
      else none
    else if sub = 0x7 then
      if reg_x < 16 ∧ reg_y < 16 then
        some { s with V := setArr s.V reg_x ((s.V reg_y + 256 - s.V reg_x) % 256),
                      pc := (s.pc + 2) % 65536 }
      else none
    else if sub = 0xE then
      if reg_x < 16 then
        let v1 := setArr s.V 0xF (s.V reg_x &&& 0b10000000)
        some { s with V := setArr v1 reg_x ((v1 reg_x <<< 1) % 256),
                      pc := (s.pc + 2) % 65536 }
      else none
    else some s
  else if code_type = 0x9000 then
    let reg_x := (s.opcode &&& 0xF00) >>> 16
    let reg_y := (s.opcode &&& 0xF0) >>> 8
    if reg_x < 16 ∧ reg_y < 16 then
      if s.V reg_x ≠ s.V reg_y then some { s with pc := (s.pc + 4) % 65536 }
      else some { s with pc := (s.pc + 2) % 65536 }
    else none
  else if code_type = 0xA000 then
    some { s with I := s.opcode &&& 0xFFF, pc := (s.pc + 2) % 65536 }
  else if code_type = 0xB000 then
    some { s with pc := (s.V 0 + (s.opcode &&& 0xFFF)) % 65536 }
  else if code_type = 0xC000 then
    let reg := (s.opcode &&& 0xF00) >>> 16
    if reg < 16 then
      some { s with V := setArr s.V reg ((s.rand_val % 256) &&& s.opcode &&& 0xFF),
                    pc := (s.pc + 2) % 65536 }
    else none
  else if code_type = 0xD000 then
    let reg_x := (s.opcode &&& 0xF00) >>> 16
    let reg_y := (s.opcode &&& 0xF0) >>> 8
    let height := s.opcode &&& 0xF
    if reg_x < 16 ∧ reg_y < 16 then
      let start_position := s.V reg_y * GFX_W + s.V reg_x
      match drawRows (List.range height) s.memory s.gfx start_position s.I 0 with
      | none => none
      | some (gfx2, vf) =>
        some { s with gfx := gfx2, V := setArr s.V 0xF vf,
                      pc := (s.pc + 2) % 65536 }
    else none
  else if code_type = 0xE000 then
    let sub := s.opcode &&& 0xFF
    let reg := (s.opcode &&& 0xF00) >>> 16
    if reg < 16 ∧ s.V reg < 16 then
      let key := s.key (s.V reg)
      if sub = 0x9E then
        if key ≠ 0 then some { s with pc := (s.pc + 4) % 65536 }
        else some { s with pc := (s.pc + 2) % 65536 }
      else if sub = 0xA1 then
        if key = 0 then some { s with pc := (s.pc + 4) % 65536 }
        else some { s with pc := (s.pc + 2) % 65536 }
      else some s
    else none
  else if code_type = 0xF000 then
    let sub := s.opcode &&& 0xFF
    let reg := (s.opcode &&& 0xF00) >>> 16
    if sub = 0x07 then
      if reg < 16 then
        some { s with V := setArr s.V reg s.delay_timer, pc := (s.pc + 2) % 65536 }
      else none
    else if sub = 0x0A then
      some { s with next_key := -2 }
    else if sub = 0x15 then
      if reg < 16 then
        some { s with delay_timer := s.V reg, pc := (s.pc + 2) % 65536 }
      else none
    else if sub = 0x18 then
      if reg < 16 then
        some { s with sound_timer := s.V reg, pc := (s.pc + 2) % 65536 }
      else none
    else if sub = 0x1E then
      if reg < 16 then
        some { s with I := (s.I + s.V reg) % 65536, pc := (s.pc + 2) % 65536 }
      else none
    else if sub = 0x29 then
      if reg < 16 then
        some { s with I := s.V reg, pc := (s.pc + 2) % 65536 }
      else none
    else if sub = 0x33 then
      if reg < 16 ∧ s.I + 2 < MEMORY_SIZE then
        let m1 := setArr s.memory s.I (s.V reg / 100)
        let m2 := setArr m1 (s.I + 1) ((s.V reg / 10) % 10)
        let m3 := setArr m2 (s.I + 2) (s.V reg % 10)
        some { s with memory := m3, pc := (s.pc + 2) % 65536 }
      else none
    else if sub = 0x55 then
      if reg + 1 ≤ 16 ∧ s.I + reg + 1 ≤ MEMORY_SIZE then
        let mem2 : Nat → Nat := fun a =>
          if s.I ≤ a ∧ a ≤ s.I + reg then s.V (a - s.I) else s.memory a
        some { s with memory := mem2, pc := (s.pc + 2) % 65536 }
      else none
    else if sub = 0x65 then
      if reg + 1 ≤ 16 ∧ s.I + reg + 1 ≤ MEMORY_SIZE then
        let v2 : Nat → Nat := fun a =>
          if a ≤ reg then s.memory (s.I + a) else s.V a
        some { s with V := v2, pc := (s.pc + 2) % 65536 }
      else none
    else some s
  else some s

/-- fn e_update: resolve the pending key state (a key-wait reaches a todo
macro, a panic), fetch the big-endian opcode at pc, execute it, then run the
timer tail. -/
def e_update (s : CHIP8) : Option CHIP8 :=
  if s.next_key = -2 then none
  else
    let keyStep : Option CHIP8 :=
      if 0 ≤ s.next_key then
        if s.next_key.toNat < 16 then
          some { s with key := setArr s.key s.next_key.toNat 1 }
        else none
      else some s
    match keyStep with
    | none => none
    | some s1 =>
      if s1.pc + 1 < MEMORY_SIZE then
        let op := ((s1.memory s1.pc <<< 8) ||| s1.memory (s1.pc + 1)) % 65536
        let s2 := { s1 with opcode := op }
        match e_execute_op s2 op with
        | none => none
        | some s3 =>
          let t := update_timers s3.delay_timer s3.sound_timer
          some { s3 with delay_timer := t.1, sound_timer := t.2.1 }
      else none

/-- fn e_reset: zero memory, registers, stack, keys and the stack pointer,
reset pc to 0x200 and the key-wait latch; nothing else is touched. -/
def e_reset (s : CHIP8) : CHIP8 :=
  { s with memory := fun _ => 0, pc := 0x200, stack := fun _ => 0,
           V := fun _ => 0, key := fun _ => 0, next_key := -1, sp := 0 }

/-! Concrete machine states used by the claim theorems below. -/

/-- Memory holding the single sprite byte 1 at 0x200. -/
def mem_sprite_one : Nat → Nat := fun a => if a = 0x200 then 1 else 0

/-- Memory holding the jump instruction 0x1234 at 0x200. -/
def mem_jump : Nat → Nat :=
  fun a => if a = 0x200 then 0x12 else if a = 0x201 then 0x34 else 0

/-- Registers with V1 = 7, the rest 0. -/
def regs_v1 : Nat → Nat := fun i => if i = 1 then 7 else 0

/-- Registers with V1 = 200 and V2 = 100, the rest 0. -/
def regs_add : Nat → Nat := fun i => if i = 1 then 200 else if i = 2 then 100 else 0

/-- Registers with V0 = 200, the rest 0. -/
def regs_v0 : Nat → Nat := fun i => if i = 0 then 200 else 0

/-- A fresh machine about to execute the set instruction 6105. -/
def st_set_reg : CHIP8 := { e_new with opcode := 0x6105 }

/-- A machine about to execute the add-immediate instruction 7105. -/
def st_add_imm : CHIP8 := { e_new with opcode := 0x7105, V := regs_v1 }

/-- A machine about to execute the register add 8124 with V1 = 200, V2 = 100. -/
def st_alu_add : CHIP8 := { e_new with opcode := 0x8124, V := regs_add }

/-- A machine about to execute the shift-left instruction 801E with V0 = 200. -/
def st_alu_shl : CHIP8 := { e_new with opcode := 0x801E, V := regs_v0 }

/-- A fresh machine about to execute the call instruction 2345. -/
def st_call : CHIP8 := { e_new with opcode := 0x2345 }

/-- A machine with a full stack about to execute the call instruction 2345. -/
def st_call_full : CHIP8 := { e_new with opcode := 0x2345, sp := 16 }

/-- A fresh machine about to execute the key-wait instruction F10A. -/
def st_key_wait : CHIP8 := { e_new with opcode := 0xF10A }

/-- A machine about to draw the one-row sprite at 0x200 via D001. -/
def st_draw : CHIP8 := { e_new with opcode := 0xD001, I := 0x200, memory := mem_sprite_one }

/-- A machine with delay timer 5 about to step the jump at 0x200. -/
def st_timer : CHIP8 := { e_new with delay_timer := 5, memory := mem_jump }

/-- A machine with both timers nonzero, to be reset. -/
def st_reset_in : CHIP8 := { e_new with delay_timer := 5, sound_timer := 7 }

/-! Helper lemma for the load bound. -/

/-- Once some byte of the payload must land at or past the end of memory,
the load loop hits the out-of-bounds write and panics (none). -/
theorem loadLoop_oob (data : List Nat) : ∀ (mem : Nat → Nat) (i : Nat),
    i + 0x200 ≤ MEMORY_SIZE → MEMORY_SIZE < i + 0x200 + data.length →
    loadLoop mem i data = none := by
  induction data with
  | nil =>
    intro mem i h1 h2
    rw [List.length_nil] at h2
    omega
  | cons b rest ih =>
    intro mem i h1 h2
    rw [List.length_cons] at h2
    simp only [loadLoop, MEMORY_SIZE] at h2 ⊢
    split
    · exact ih _ (i + 1) (by simp only [MEMORY_SIZE]; omega)
        (by simp only [MEMORY_SIZE]; omega)
    · rfl

/-! The claims. -/

/-- Claim C1: executing 6rnn is claimed to set V[r] to nn and advance pc by
2, leaving the other registers unchanged. On the code, the register index of
6105 decodes to (0x6105 AND 0xF00) shifted right by 16, which is 0, so V0
receives the byte and V1 is untouched. -/
theorem set_opcode_targets_v0_not_vx :
    (e_execute_op st_set_reg 0x6105).map (fun t => (t.V 1, t.V 0, t.pc))
      = some (0, 5, 0x202) := by decide

/-- Claim C6: executing 7105 is claimed to set V1 to (7 + 5) mod 256 = 12.
On the code, the register index again decodes to 0, so V0 becomes 5 while
V1 keeps its value 7. -/
theorem add_imm_targets_v0_not_vx :
    (e_execute_op st_add_imm 0x7105).map (fun t => (t.V 0, t.V 1, t.pc))
      = some (5, 7, 0x202) := by decide

/-- Claim C7: 8xy4 is claimed to write the carry of V[x] + V[y] into VF and
8xyE the most significant bit (0 or 1) of V[x]. On the code, the 8xy4 arm
never writes VF (it stays 0 even though 200 + 200 carries), and the 8xyE arm
stores V[x] AND 128 (here 128, not 1) into VF before shifting. -/
theorem alu_add_writes_no_carry_and_shl_writes_msb_mask :
    (e_execute_op st_alu_add 0x8124).map (fun t => (t.V 15, t.V 1, t.V 0, t.pc))
        = some (0, 200, 0, 0x202) ∧
      (e_execute_op st_alu_shl 0x801E).map (fun t => (t.V 15, t.V 0, t.pc))
        = some (128, 144, 0x202) := by
  constructor <;> decide

/-- Claim C3: a 2nnn call followed by 00EE is claimed to leave pc at its
pre-call value plus 2, and a call on a full stack is claimed to report an
error that preserves the stack. On the code, the call pushes the pc of the
call itself, the return restores exactly that pc (0x200, not 0x202), and a
call with sp = 16 writes stack[16] out of bounds (a panic, none), with no
error report. -/
theorem call_return_restores_pc_without_plus_two :
    ((e_execute_op st_call 0x2345).bind fun t =>
        (e_execute_op { t with opcode := 0x00EE } 0x00EE).map fun u =>
          (u.pc, u.sp, t.pc, t.sp, t.stack 0))
      = some (0x200, 0, 0x345, 1, 0x200) ∧
    e_execute_op st_call_full 0x2345 = none := by
  exact ⟨by decide, rfl⟩

/-- Claim C4: after Fx0A, each step is claimed to leave pc unchanged until a
key press is reported, then load the key into V[x]. On the code, F10A only
latches the waiting marker (next key becomes -2, pc stays 0x200), and the
very next update call runs into the todo macro, a panic (none); no key-press
operation exists to leave the waiting state. -/
theorem key_wait_then_step_panics :
    (e_execute_op st_key_wait 0xF10A).map (fun t => (t.next_key, t.pc))
        = some (-2, 0x200) ∧
      ((e_execute_op st_key_wait 0xF10A).bind fun t => e_update t) = none := by
  exact ⟨by decide, rfl⟩

/-- Claim C2: sprite rows are claimed to be XOR-composed into the
framebuffer, with VF = 1 exactly when a set pixel is unset, and a repeated
identical draw restoring the region. On the code, drawing the one-byte
sprite 1 on an empty screen stores the sprite bits directly (gfx[7] = 1) yet
sets VF = 1 although nothing was unset, and the identical second draw leaves
gfx[7] = 1 (no restoration) with VF = 0. -/
theorem draw_overwrites_pixels_and_misreports_collision :
    ((e_execute_op st_draw 0xD001).bind fun t =>
        (e_execute_op t 0xD001).map fun u => (t.gfx 7, t.V 15, u.gfx 7, u.V 15))
      = some (1, 1, 1, 0) := by decide

/-- Claim C5 counterexample: the timer tick is claimed to be separate from
instruction stepping (60Hz cadence, not once per executed instruction). On
the code, a single update call that executes the jump at 0x200 already
decrements the delay timer from 5 to 4. -/
theorem instruction_step_ticks_delay_timer :
    st_timer.delay_timer = 5 ∧
      (e_update st_timer).map (fun t => t.delay_timer) = some 4 := by
  constructor <;> decide

/-- Claim C5 (amended): within each update call (once per executed
instruction), the delay and sound timers decrement by exactly 1 when
nonzero, stay at 0 when zero, and the beep fires exactly when the sound
timer is 1, its transition to 0. -/
theorem update_timers_decrements_and_beeps (d s : Nat) :
    (update_timers d s).1 = d - 1 ∧ (update_timers d s).2.1 = s - 1 ∧
      ((update_timers d s).2.2 = true ↔ s = 1) := by
  unfold update_timers
  refine ⟨?_, ?_, ?_⟩
  · by_cases h : 0 < d <;> simp [h] <;> omega
  · by_cases h : 0 < s <;> simp [h] <;> omega
  · by_cases h : 0 < s <;> simp [h] <;> omega

/-- Claim C8: a payload longer than 4096 - 512 bytes is claimed to fail the
load with an error, without mutating memory. On the code, there is no length
check: the copy loop itself runs past the end of memory and panics (none)
instead of reporting an error. -/
theorem e_load_oversized_rom_panics (data : List Nat) (h : 3584 < data.length) :
    e_load e_new data = none := by
  have h1 : (0 : Nat) + 0x200 ≤ MEMORY_SIZE := by unfold MEMORY_SIZE; omega
  have h2 : MEMORY_SIZE < 0 + 0x200 + data.length := by unfold MEMORY_SIZE; omega
  have hl := loadLoop_oob data e_new.memory 0 h1 h2
  simp [e_load, hl]

/-- Witness for the oversized-load theorem at a concrete 3585-byte payload. -/
theorem e_load_oversized_rom_panics_witness :
    3584 < (List.replicate 3585 (0 : Nat)).length ∧
      e_load e_new (List.replicate 3585 (0 : Nat)) = none :=
  ⟨by rw [List.length_replicate]; omega,
    e_load_oversized_rom_panics (List.replicate 3585 (0 : Nat))
      (by rw [List.length_replicate]; omega)⟩

/-- Claim C9 counterexample: reset is claimed to reinitialize both timers to
their post-create values (0). On the code, e_reset leaves the delay timer at
5 and the sound timer at 7 while a fresh machine has both at 0. -/
theorem reset_preserves_timers_instead_of_clearing :
    (e_reset st_reset_in).delay_timer = 5 ∧ (e_reset st_reset_in).sound_timer = 7 ∧
      e_new.delay_timer = 0 ∧ e_new.sound_timer = 0 :=
  ⟨rfl, rfl, rfl, rfl⟩

/-- Claim C9 (amended): reset restores memory, registers, stack, stack
pointer, key latches, key-wait latch and pc to their post-create values (the
zeroed memory still equals the post-create memory, the fontset being all
zero), while the delay timer, sound timer, index register, graphics memory,
opcode latch and draw flag keep their pre-reset values. -/
theorem reset_restores_created_state_except_timers (s : CHIP8) :
    (e_reset s).memory = e_new.memory ∧ (e_reset s).pc = e_new.pc ∧
      (e_reset s).stack = e_new.stack ∧ (e_reset s).V = e_new.V ∧
      (e_reset s).key = e_new.key ∧ (e_reset s).next_key = e_new.next_key ∧
      (e_reset s).sp = e_new.sp ∧
      (e_reset s).delay_timer = s.delay_timer ∧
      (e_reset s).sound_timer = s.sound_timer ∧
      (e_reset s).I = s.I ∧ (e_reset s).gfx = s.gfx ∧
      (e_reset s).opcode = s.opcode ∧ (e_reset s).draw_flag = s.draw_flag := by
  refine ⟨?_, rfl, rfl, rfl, rfl, rfl, rfl, rfl, rfl, rfl, rfl, rfl, rfl⟩
  funext a
  simp [e_reset, e_new, CHIP8_FONTSET]

/-- Claim C10: e_execute_op never reads its opcode argument; the executed
instruction is always the opcode field of the state, stored there by the
preceding fetch, so any two argument values give the same resulting state. -/
theorem execute_op_ignores_argument :
    ∀ (s : CHIP8) (a b : Nat),
      e_execute_op s a = e_execute_op s b ∧
        e_execute_op s a = e_execute_op s s.opcode :=
  fun _ _ _ => ⟨rfl, rfl⟩
